import Mathlib

/-!
# Verification of the ac-matcher marketplace application

A shallow embedding of the request handlers of `app.py` (together with the
data model of `models.py` and the session lookup of `auth.py`) of the
ac-matcher repository, and proofs of the specified properties.

The database is modelled as explicit lists of rows with auto-increment
counters; each mutating handler is a pure function from a database state,
an optional session user id, and the submitted form fields to the new
database state and the HTTP response (all mutating handlers respond with a
redirect).  Python string helpers (`strip`, `lower`, slicing,
`startswith`) are modelled on the code-point list underlying a Lean
string.
-/

namespace ACMatcher

/-! ## Python string helpers -/

/-- Python `s.strip()`: remove whitespace from both ends. -/
def py_strip (s : String) : String :=
  ⟨((s.data.dropWhile Char.isWhitespace).reverse.dropWhile Char.isWhitespace).reverse⟩

/-- Python `s.lower()` (ASCII case folding, as used for roles and emails). -/
def py_lower (s : String) : String :=
  ⟨s.data.map Char.toLower⟩

/-- Python `s[:n]`: the first `n` code points. -/
def py_take (s : String) (n : Nat) : String :=
  ⟨s.data.take n⟩

/-- Python `s.startswith(p)`. -/
def py_startswith (s p : String) : Bool :=
  p.data.isPrefixOf s.data

/-- Split a code-point list on the comma character (Python `split(",")`). -/
def splitOnComma : List Char → List (List Char)
  | [] => [[]]
  | c :: rest =>
    let r := splitOnComma rest
    if c = ',' then [] :: r
    else
      match r with
      | [] => [[c]]
      | h :: t => (c :: h) :: t

/-! ## Data model (`models.py`) -/

/-- A row of the `users` table. -/
structure User where
  id : Nat
  role : String
  name : String
  phone : String
  city : String
  email : String
  password_hash : String
  deriving Repr, DecidableEq

/-- A row of the `provider_profile` table (verification flags omitted:
they are only ever read, never set, by the handlers in `app.py`). -/
structure ProviderProfile where
  id : Nat
  user_id : Nat
  display_name : String
  shop_name : String
  city : String
  specialties : String
  bio : String
  identity_doc_url : String
  business_doc_url : String
  license_doc_url : String
  deriving Repr, DecidableEq

/-- A row of the `provider_portfolio` table. -/
structure PortfolioItem where
  id : Nat
  user_id : Nat
  image_url : String
  service_type : String
  caption : String
  deriving Repr, DecidableEq

/-- A row of the `jobs` table. -/
structure Job where
  id : Nat
  owner_id : Nat
  service_type : String
  city : String
  district : String
  address_note : String
  ac_type : String
  units : Int
  floor : String
  urgent : Bool
  time_window : String
  description : String
  status : String
  deriving Repr, DecidableEq

/-- A row of the `proposals` table. -/
structure Proposal where
  id : Nat
  job_id : Nat
  provider_id : Nat
  price : Int
  available_time : String
  warranty : String
  note : String
  deriving Repr, DecidableEq

/-- The database state: the five tables plus their auto-increment
counters (SQLite assigns ids 1, 2, ...). -/
structure DB where
  users : List User
  profiles : List ProviderProfile
  portfolio : List PortfolioItem
  jobs : List Job
  proposals : List Proposal
  nextUserId : Nat
  nextProfileId : Nat
  nextPortfolioId : Nat
  nextJobId : Nat
  nextProposalId : Nat
  deriving Repr, DecidableEq

/-- The empty database, as created on startup. -/
def DB.empty : DB :=
  { users := [], profiles := [], portfolio := [], jobs := [], proposals := []
    nextUserId := 1, nextProfileId := 1, nextPortfolioId := 1
    nextJobId := 1, nextProposalId := 1 }

/-- An HTTP response; every mutating handler returns a redirect. -/
inductive Response where
  | redirect (location : String) (status : Nat)
  deriving Repr, DecidableEq

/-! ## Lookups and session (`auth.py`, `current_user`) -/

/-- `s.get(User, uid)`: primary-key lookup. -/
def findUser (db : DB) (uid : Nat) : Option User :=
  db.users.find? (fun u => u.id = uid)

/-- `s.get(Job, job_id)`: primary-key lookup. -/
def findJob (db : DB) (jid : Nat) : Option Job :=
  db.jobs.find? (fun j => j.id = jid)

/-- `s.get(ProviderPortfolio, item_id)`: primary-key lookup. -/
def findPortfolioItem (db : DB) (iid : Nat) : Option PortfolioItem :=
  db.portfolio.find? (fun it => it.id = iid)

/-- `current_user`: resolve the session cookie's user id to a `User`.
A session is an optional user id; `get_user_id` treats the id 0 as
absent (Python `if not uid`). -/
def current_user (db : DB) (session : Option Nat) : Option User :=
  match session with
  | none => none
  | some uid => if uid = 0 then none else findUser db uid

/-- Modelled from the spec: `hash_password` wraps the passlib
`pbkdf2_sha256` hashing library, which is external to the repository;
its output is treated as an injective tagging of the password. -/
def hash_password (password : String) : String :=
  "pbkdf2_sha256$" ++ password

/-! ## Handlers (`app.py`) -/

/-- `get_or_create_provider_profile`: return the provider's profile row,
creating a blank one when absent. -/
def get_or_create_provider_profile (db : DB) (user : User) :
    DB × ProviderProfile :=
  match db.profiles.find? (fun p => p.user_id = user.id) with
  | some prof => (db, prof)
  | none =>
    let prof : ProviderProfile :=
      { id := db.nextProfileId, user_id := user.id
        display_name := "", shop_name := "", city := user.city
        specialties := "", bio := ""
        identity_doc_url := "", business_doc_url := "", license_doc_url := "" }
    ({ db with profiles := db.profiles ++ [prof]
               nextProfileId := db.nextProfileId + 1 }, prof)

/-- `POST /register`. -/
def register (db : DB) (role name phone city email password : String) :
    DB × Response :=
  let role := py_lower (py_strip role)
  if ¬ (role = "owner" ∨ role = "provider") then
    (db, .redirect "/register?err=bad_role" 303)
  else
    let email_clean := py_lower (py_strip email)
    if (db.users.find? (fun u => u.email = email_clean)).isSome then
      (db, .redirect "/register?err=email_exists" 303)
    else
      let u : User :=
        { id := db.nextUserId, role := role, name := py_strip name
          phone := py_strip phone, city := py_strip city
          email := email_clean, password_hash := hash_password password }
      let db1 : DB :=
        { db with users := db.users ++ [u], nextUserId := db.nextUserId + 1 }
      let db2 := if u.role = "provider"
                 then (get_or_create_provider_profile db1 u).1 else db1
      (db2, .redirect "/" 303)

/-- The `clean_csv` helper of `me_provider_save`: normalize the
specialties field (replace the ideographic comma, split, strip, drop
empties, deduplicate keeping first occurrences, rejoin, cap at 120). -/
def clean_csv (v : String) : String :=
  let replaced := v.data.map (fun c => if c = '、' then ',' else c)
  let parts := (splitOnComma replaced).map (fun l => py_strip ⟨l⟩)
  let parts := parts.filter (fun p => ¬ p = "")
  let dedup := parts.foldl (fun acc p => if acc.contains p then acc else acc ++ [p]) []
  py_take (String.intercalate "," dedup) 120

/-- `POST /me/provider`: save the provider profile fields. -/
def me_provider_save (db : DB) (session : Option Nat)
    (display_name shop_name city specialties bio
     identity_doc_url business_doc_url license_doc_url : String) :
    DB × Response :=
  match current_user db session with
  | none => (db, .redirect "/login" 303)
  | some user =>
    if user.role ≠ "provider" then (db, .redirect "/login" 303)
    else
      let pair := get_or_create_provider_profile db user
      let db1 := pair.1
      let prof := pair.2
      let prof' : ProviderProfile :=
        { prof with
          display_name := py_take (py_strip display_name) 60
          shop_name := py_take (py_strip shop_name) 80
          city := py_take (py_strip city) 30
          specialties := clean_csv specialties
          bio := py_strip bio
          identity_doc_url := py_take (py_strip identity_doc_url) 300
          business_doc_url := py_take (py_strip business_doc_url) 300
          license_doc_url := py_take (py_strip license_doc_url) 300 }
      ({ db1 with profiles :=
           db1.profiles.map (fun p => if p.id = prof.id then prof' else p) },
       .redirect "/me/provider?saved=1" 303)

/-- `POST /me/portfolio/add`: add a portfolio image (at most six per
provider). -/
def me_portfolio_add (db : DB) (session : Option Nat)
    (image_url service_type caption : String) : DB × Response :=
  match current_user db session with
  | none => (db, .redirect "/login" 303)
  | some user =>
    if user.role ≠ "provider" then (db, .redirect "/login" 303)
    else
      let image_url := py_strip image_url
      if ¬ (py_startswith image_url "http://" ∨ py_startswith image_url "https://") then
        (db, .redirect "/me/portfolio?err=bad_url" 303)
      else
        let existing := db.portfolio.filter (fun it => it.user_id = user.id)
        if existing.length ≥ 6 then
          (db, .redirect "/me/portfolio?err=max6" 303)
        else
          let item : PortfolioItem :=
            { id := db.nextPortfolioId, user_id := user.id
              image_url := py_take image_url 400
              service_type := py_take (py_strip service_type) 30
              caption := py_take (py_strip caption) 120 }
          ({ db with portfolio := db.portfolio ++ [item]
                     nextPortfolioId := db.nextPortfolioId + 1 },
           .redirect "/me/portfolio?added=1" 303)

/-- `POST /me/portfolio/{item_id}/delete`: delete an own portfolio item. -/
def me_portfolio_delete (db : DB) (session : Option Nat) (item_id : Nat) :
    DB × Response :=
  match current_user db session with
  | none => (db, .redirect "/login" 303)
  | some user =>
    if user.role ≠ "provider" then (db, .redirect "/login" 303)
    else
      let db' :=
        match findPortfolioItem db item_id with
        | some item =>
          if item.user_id = user.id then
            { db with portfolio := db.portfolio.filter (fun it => ¬ it.id = item_id) }
          else db
        | none => db
      (db', .redirect "/me/portfolio?deleted=1" 303)

/-- `POST /jobs/post`: create a job (owner only); `units` is clamped to
at least 1, `status` defaults to `"open"`. -/
def post_job (db : DB) (session : Option Nat)
    (service_type city district address_note ac_type : String)
    (units : Int) (floor urgent time_window description : String) :
    DB × Response :=
  match current_user db session with
  | none => (db, .redirect "/login" 303)
  | some user =>
    if user.role ≠ "owner" then (db, .redirect "/login" 303)
    else
      let urgent_bool := urgent = "1"
      let j : Job :=
        { id := db.nextJobId, owner_id := user.id
          service_type := py_strip service_type
          city := py_strip city, district := py_strip district
          address_note := py_strip address_note, ac_type := py_strip ac_type
          units := max 1 units, floor := py_strip floor
          urgent := urgent_bool, time_window := py_strip time_window
          description := py_strip description, status := "open" }
      ({ db with jobs := db.jobs ++ [j], nextJobId := db.nextJobId + 1 },
       .redirect "/dashboard" 303)

/-- `POST /jobs/{job_id}/close`: the owning user closes their job. -/
def close_job (db : DB) (session : Option Nat) (job_id : Nat) :
    DB × Response :=
  match current_user db session with
  | none => (db, .redirect "/login" 303)
  | some user =>
    if user.role ≠ "owner" then (db, .redirect "/login" 303)
    else
      match findJob db job_id with
      | none => (db, .redirect "/jobs" 303)
      | some job =>
        if job.owner_id ≠ user.id then (db, .redirect "/jobs" 303)
        else
          ({ db with jobs := db.jobs.map (fun j =>
               if j.id = job_id then { j with status := "closed" } else j) },
           .redirect ("/jobs/" ++ toString job_id) 303)

/-- `POST /jobs/{job_id}/propose`: a provider bids on an open job;
`price` is clamped to at least 0. -/
def propose (db : DB) (session : Option Nat) (job_id : Nat) (price : Int)
    (available_time warranty note : String) : DB × Response :=
  match current_user db session with
  | none => (db, .redirect "/login" 303)
  | some user =>
    if user.role ≠ "provider" then (db, .redirect "/login" 303)
    else
      match findJob db job_id with
      | none => (db, .redirect "/jobs" 303)
      | some job =>
        if job.status ≠ "open" then (db, .redirect "/jobs" 303)
        else
          let p : Proposal :=
            { id := db.nextProposalId, job_id := job.id, provider_id := user.id
              price := max 0 price
              available_time := py_strip available_time
              warranty := py_strip warranty, note := py_strip note }
          ({ db with proposals := db.proposals ++ [p]
                     nextProposalId := db.nextProposalId + 1 },
           .redirect "/dashboard" 303)

/-! ## Request sequences -/

/-- A mutating request against the application: one constructor per
exposed handler that can write to the database (the remaining routes are
read-only renders or session-cookie operations and leave the database
unchanged). -/
inductive Request where
  | register (role name phone city email password : String)
  | me_provider_save (session : Option Nat)
      (display_name shop_name city specialties bio
       identity_doc_url business_doc_url license_doc_url : String)
  | me_portfolio_add (session : Option Nat) (image_url service_type caption : String)
  | me_portfolio_delete (session : Option Nat) (item_id : Nat)
  | post_job (session : Option Nat)
      (service_type city district address_note ac_type : String)
      (units : Int) (floor urgent time_window description : String)
  | close_job (session : Option Nat) (job_id : Nat)
  | propose (session : Option Nat) (job_id : Nat) (price : Int)
      (available_time warranty note : String)
  deriving Repr

/-- The database state after handling one request. -/
def applyRequest (db : DB) (r : Request) : DB :=
  match r with
  | .register role name phone city email password =>
    (register db role name phone city email password).1
  | .me_provider_save s a b c d e f g h =>
    (me_provider_save db s a b c d e f g h).1
  | .me_portfolio_add s u t c => (me_portfolio_add db s u t c).1
  | .me_portfolio_delete s i => (me_portfolio_delete db s i).1
  | .post_job s a b c d e u f g h i => (post_job db s a b c d e u f g h i).1
  | .close_job s j => (close_job db s j).1
  | .propose s j p a w n => (propose db s j p a w n).1

/-- The number of portfolio rows a user has. -/
def portfolioCount (db : DB) (uid : Nat) : Nat :=
  (db.portfolio.filter (fun it => it.user_id = uid)).length


/-! ## Sample data for concrete witnesses -/

/-- A provider user, id 1. -/
def sampleProvider : User :=
  { id := 1, role := "provider", name := "pat", phone := "0911", city := "taipei"
    email := "provider@example.com", password_hash := "h1" }

/-- An owner user, id 2. -/
def sampleOwner : User :=
  { id := 2, role := "owner", name := "olive", phone := "0922", city := "taipei"
    email := "owner@example.com", password_hash := "h2" }

/-- An open job, id 1, owned by the owner user. -/
def sampleOpenJob : Job :=
  { id := 1, owner_id := 2, service_type := "clean", city := "taipei"
    district := "", address_note := "", ac_type := "", units := 1, floor := ""
    urgent := false, time_window := "", description := "", status := "open" }

/-- A closed job, id 2, owned by the owner user. -/
def sampleClosedJob : Job :=
  { id := 2, owner_id := 2, service_type := "fix", city := "taipei"
    district := "", address_note := "", ac_type := "", units := 2, floor := ""
    urgent := false, time_window := "", description := "", status := "closed" }

/-- A database with the two users and the two jobs. -/
def sampleDB : DB :=
  { users := [sampleProvider, sampleOwner], profiles := [], portfolio := []
    jobs := [sampleOpenJob, sampleClosedJob], proposals := []
    nextUserId := 3, nextProfileId := 1, nextPortfolioId := 1
    nextJobId := 3, nextProposalId := 1 }

/-- A portfolio row of the provider user. -/
def mkItem (k : Nat) : PortfolioItem :=
  { id := k, user_id := 1, image_url := "https://example.com/p.png"
    service_type := "", caption := "" }

/-- The sample database in which the provider has five portfolio rows. -/
def fiveItemDB : DB :=
  { sampleDB with portfolio := [mkItem 1, mkItem 2, mkItem 3, mkItem 4, mkItem 5]
                  nextPortfolioId := 6 }

/-- The sample database in which the provider has six portfolio rows. -/
def sixItemDB : DB :=
  { sampleDB with portfolio := [mkItem 1, mkItem 2, mkItem 3, mkItem 4, mkItem 5, mkItem 6]
                  nextPortfolioId := 7 }

/-- The role gate of a handler fails: the session resolves to no user, or
to a user whose role differs from the required one. -/
def auth_denied (db : DB) (session : Option Nat) (role : String) : Bool :=
  match current_user db session with
  | none => true
  | some u => !(u.role == role)

/-! ## Effect lemmas for the handlers -/

theorem get_or_create_profile_portfolio (db : DB) (u : User) :
    (get_or_create_provider_profile db u).1.portfolio = db.portfolio := by
  unfold get_or_create_provider_profile
  split <;> rfl

theorem get_or_create_profile_jobs (db : DB) (u : User) :
    (get_or_create_provider_profile db u).1.jobs = db.jobs := by
  unfold get_or_create_provider_profile
  split <;> rfl

theorem register_portfolio (db : DB) (a b c d e f : String) :
    (register db a b c d e f).1.portfolio = db.portfolio := by
  simp only [register]
  split
  · rfl
  · split
    · rfl
    · split
      · exact get_or_create_profile_portfolio _ _
      · rfl

theorem register_jobs (db : DB) (a b c d e f : String) :
    (register db a b c d e f).1.jobs = db.jobs := by
  simp only [register]
  split
  · rfl
  · split
    · rfl
    · split
      · exact get_or_create_profile_jobs _ _
      · rfl

theorem me_provider_save_portfolio (db : DB) (s : Option Nat)
    (a b c d e f g h : String) :
    (me_provider_save db s a b c d e f g h).1.portfolio = db.portfolio := by
  simp only [me_provider_save]
  split
  · rfl
  · split
    · rfl
    · exact get_or_create_profile_portfolio _ _

theorem me_provider_save_jobs (db : DB) (s : Option Nat)
    (a b c d e f g h : String) :
    (me_provider_save db s a b c d e f g h).1.jobs = db.jobs := by
  simp only [me_provider_save]
  split
  · rfl
  · split
    · rfl
    · exact get_or_create_profile_jobs _ _

theorem me_portfolio_add_jobs (db : DB) (s : Option Nat) (a b c : String) :
    (me_portfolio_add db s a b c).1.jobs = db.jobs := by
  simp only [me_portfolio_add]
  split
  · rfl
  · split
    · rfl
    · split
      · rfl
      · split <;> rfl

theorem me_portfolio_delete_jobs (db : DB) (s : Option Nat) (i : Nat) :
    (me_portfolio_delete db s i).1.jobs = db.jobs := by
  simp only [me_portfolio_delete]
  split
  · rfl
  · split
    · rfl
    · split
      · split <;> rfl
      · rfl

theorem post_job_portfolio (db : DB) (s : Option Nat)
    (a b c d e : String) (u : Int) (f g h i : String) :
    (post_job db s a b c d e u f g h i).1.portfolio = db.portfolio := by
  simp only [post_job]
  split
  · rfl
  · split <;> rfl

theorem close_job_portfolio (db : DB) (s : Option Nat) (jid : Nat) :
    (close_job db s jid).1.portfolio = db.portfolio := by
  simp only [close_job]
  split
  · rfl
  · split
    · rfl
    · split
      · rfl
      · split <;> rfl

theorem propose_portfolio (db : DB) (s : Option Nat) (jid : Nat) (pr : Int)
    (a w n : String) :
    (propose db s jid pr a w n).1.portfolio = db.portfolio := by
  simp only [propose]
  split
  · rfl
  · split
    · rfl
    · split
      · rfl
      · split <;> rfl

theorem propose_jobs (db : DB) (s : Option Nat) (jid : Nat) (pr : Int)
    (a w n : String) :
    (propose db s jid pr a w n).1.jobs = db.jobs := by
  simp only [propose]
  split
  · rfl
  · split
    · rfl
    · split
      · rfl
      · split <;> rfl

theorem me_portfolio_add_portfolio_shape (db : DB) (s : Option Nat)
    (a b c : String) :
    (me_portfolio_add db s a b c).1.portfolio = db.portfolio ∨
      ∃ u, current_user db s = some u ∧
        (db.portfolio.filter (fun it => it.user_id = u.id)).length < 6 ∧
        ∃ item : PortfolioItem, item.user_id = u.id ∧
          (me_portfolio_add db s a b c).1.portfolio = db.portfolio ++ [item] := by
  simp only [me_portfolio_add]
  split
  · exact Or.inl rfl
  next u hu =>
    split
    · exact Or.inl rfl
    · split
      · exact Or.inl rfl
      · split
        · exact Or.inl rfl
        next hlen =>
          refine Or.inr ⟨u, hu, by omega, ?_⟩
          exact ⟨_, rfl, rfl⟩

theorem me_portfolio_delete_portfolio_shape (db : DB) (s : Option Nat)
    (i : Nat) :
    (me_portfolio_delete db s i).1.portfolio = db.portfolio ∨
      (me_portfolio_delete db s i).1.portfolio
        = db.portfolio.filter (fun it => ¬ it.id = i) := by
  simp only [me_portfolio_delete]
  split
  · exact Or.inl rfl
  · split
    · exact Or.inl rfl
    · split
      · split
        · exact Or.inr rfl
        · exact Or.inl rfl
      · exact Or.inl rfl

theorem post_job_jobs_shape (db : DB) (s : Option Nat)
    (a b c d e : String) (u : Int) (f g h i : String) :
    (post_job db s a b c d e u f g h i).1.jobs = db.jobs ∨
      ∃ j : Job, j.status = "open" ∧
        (post_job db s a b c d e u f g h i).1.jobs = db.jobs ++ [j] := by
  simp only [post_job]
  split
  · exact Or.inl rfl
  · split
    · exact Or.inl rfl
    · exact Or.inr ⟨_, rfl, rfl⟩

theorem close_job_jobs_shape (db : DB) (s : Option Nat) (jid : Nat) :
    (close_job db s jid).1.jobs = db.jobs ∨
      (close_job db s jid).1.jobs = db.jobs.map (fun x =>
        if x.id = jid then { x with status := "closed" } else x) := by
  simp only [close_job]
  split
  · exact Or.inl rfl
  · split
    · exact Or.inl rfl
    · split
      · exact Or.inl rfl
      · split
        · exact Or.inl rfl
        · exact Or.inr rfl

theorem length_filter_filter_le {α : Type} (l : List α) (p q : α → Bool) :
    ((l.filter q).filter p).length ≤ (l.filter p).length := by
  rw [List.filter_filter]
  induction l with
  | nil => simp
  | cons hd tl ih =>
    cases hq : q hd <;> cases hp : p hd <;>
      simp [List.filter_cons, hq, hp] <;> omega

theorem applyRequest_portfolioCount_le (db : DB) (r : Request)
    (h : ∀ uid, portfolioCount db uid ≤ 6) (uid : Nat) :
    portfolioCount (applyRequest db r) uid ≤ 6 := by
  cases r with
  | register a b c d e f =>
    unfold portfolioCount applyRequest
    rw [register_portfolio]
    exact h uid
  | me_provider_save s a b c d e f g hh =>
    unfold portfolioCount applyRequest
    rw [me_provider_save_portfolio]
    exact h uid
  | me_portfolio_add s a b c =>
    rcases me_portfolio_add_portfolio_shape db s a b c with
      hsame | ⟨u, _, hlt, item, hitem, happ⟩
    · unfold portfolioCount applyRequest
      rw [hsame]
      exact h uid
    · have hdb := h uid
      unfold portfolioCount at hdb ⊢
      unfold applyRequest
      rw [happ, List.filter_append, List.length_append]
      by_cases huid : uid = u.id
      · rw [huid]
        have hle := List.length_filter_le
          (fun it => decide (it.user_id = u.id)) [item]
        simp only [List.length_cons, List.length_nil] at hle
        omega
      · have hcond : (decide (item.user_id = uid)) = false := by
          simp only [hitem, decide_eq_false_iff_not]
          exact fun hcontra => huid hcontra.symm
        have h2 : List.filter (fun it => decide (it.user_id = uid)) [item] = [] := by
          simp [List.filter_cons, hcond]
        rw [h2, List.length_nil]
        omega
  | me_portfolio_delete s i =>
    rcases me_portfolio_delete_portfolio_shape db s i with hsame | hfil
    · unfold portfolioCount applyRequest at *
      rw [hsame]
      exact h uid
    · unfold portfolioCount applyRequest at *
      rw [hfil]
      exact le_trans (length_filter_filter_le _ _ _) (h uid)
  | post_job s a b c d e u f g hh i =>
    unfold portfolioCount applyRequest
    rw [post_job_portfolio]
    exact h uid
  | close_job s j =>
    unfold portfolioCount applyRequest
    rw [close_job_portfolio]
    exact h uid
  | propose s j p a w n =>
    unfold portfolioCount applyRequest
    rw [propose_portfolio]
    exact h uid

theorem close_map_id_pred (i jid : Nat) :
    ((fun jb => decide (jb.id = i)) ∘ (fun x : Job =>
        if x.id = jid then { x with status := "closed" } else x))
      = (fun jb : Job => decide (jb.id = i)) := by
  funext x
  have hid : (if x.id = jid then { x with status := "closed" } else x).id = x.id := by
    split <;> rfl
  simp only [Function.comp_apply, hid]

theorem findJob_closed_applyRequest (db : DB) (r : Request) (i : Nat) (j : Job)
    (hfind : findJob db i = some j) (hclosed : j.status = "closed") :
    ∃ j', findJob (applyRequest db r) i = some j' ∧ j'.status = "closed" := by
  cases r with
  | register a b c d e f =>
    refine ⟨j, ?_, hclosed⟩
    unfold findJob applyRequest at *
    rw [register_jobs]
    exact hfind
  | me_provider_save s a b c d e f g hh =>
    refine ⟨j, ?_, hclosed⟩
    unfold findJob applyRequest at *
    rw [me_provider_save_jobs]
    exact hfind
  | me_portfolio_add s a b c =>
    refine ⟨j, ?_, hclosed⟩
    unfold findJob applyRequest at *
    rw [me_portfolio_add_jobs]
    exact hfind
  | me_portfolio_delete s i2 =>
    refine ⟨j, ?_, hclosed⟩
    unfold findJob applyRequest at *
    rw [me_portfolio_delete_jobs]
    exact hfind
  | propose s jid pr a w n =>
    refine ⟨j, ?_, hclosed⟩
    unfold findJob applyRequest at *
    rw [propose_jobs]
    exact hfind
  | post_job s a b c d e u f g hh i2 =>
    rcases post_job_jobs_shape db s a b c d e u f g hh i2 with hsame | ⟨jb, _, happ⟩
    · refine ⟨j, ?_, hclosed⟩
      unfold findJob applyRequest at *
      rw [hsame]
      exact hfind
    · refine ⟨j, ?_, hclosed⟩
      unfold findJob applyRequest at *
      rw [happ, List.find?_append, hfind]
      rfl
  | close_job s jid =>
    rcases close_job_jobs_shape db s jid with hsame | hmap
    · refine ⟨j, ?_, hclosed⟩
      unfold findJob applyRequest at *
      rw [hsame]
      exact hfind
    · unfold findJob applyRequest at *
      rw [hmap, List.find?_map, close_map_id_pred, hfind]
      refine ⟨_, rfl, ?_⟩
      simp only []
      split
      · rfl
      · exact hclosed

theorem findJob_closed_foldl (db : DB) (i : Nat) (j : Job) (reqs : List Request)
    (hfind : findJob db i = some j) (hclosed : j.status = "closed") :
    ∃ j', findJob (reqs.foldl applyRequest db) i = some j' ∧ j'.status = "closed" := by
  induction reqs generalizing db j with
  | nil => exact ⟨j, hfind, hclosed⟩
  | cons r rs ih =>
    obtain ⟨j', hfind', hclosed'⟩ := findJob_closed_applyRequest db r i j hfind hclosed
    exact ih _ _ hfind' hclosed'

theorem post_job_new_jobs_open (db : DB) (s : Option Nat)
    (a b c d e : String) (u : Int) (f g h i2 : String) (jb : Job)
    (hm : jb ∈ (post_job db s a b c d e u f g h i2).1.jobs) :
    jb ∈ db.jobs ∨ jb.status = "open" := by
  rcases post_job_jobs_shape db s a b c d e u f g h i2 with hsame | ⟨j2, hopen, happ⟩
  · rw [hsame] at hm
    exact Or.inl hm
  · rw [happ] at hm
    rcases List.mem_append.mp hm with hin | hone
    · exact Or.inl hin
    · right
      rw [List.mem_singleton.mp hone]
      exact hopen

/-! ## Claim theorems -/

/-- C1: the close-job handler sets the job's status to closed exactly when
the caller is an authenticated user of role owner who owns the target job;
for an authenticated owner against a missing or unowned job the operation
is a no-op redirecting to the job listing page; and any state change
implies the full authorization condition held. -/
theorem close_job_owner_authorization (db : DB) (session : Option Nat) (job_id : Nat) :
    (∀ u, current_user db session = some u → u.role = "owner" →
      (∀ j, findJob db job_id = some j → j.owner_id = u.id →
        close_job db session job_id =
          ({ db with jobs := db.jobs.map (fun x =>
              if x.id = job_id then { x with status := "closed" } else x) },
           Response.redirect ("/jobs/" ++ toString job_id) 303)) ∧
      ((findJob db job_id = none ∨
          ∃ j, findJob db job_id = some j ∧ j.owner_id ≠ u.id) →
        close_job db session job_id = (db, Response.redirect "/jobs" 303))) ∧
    ((close_job db session job_id).1 ≠ db →
      ∃ u j, current_user db session = some u ∧ u.role = "owner" ∧
        findJob db job_id = some j ∧ j.owner_id = u.id) := by
  constructor
  · intro u hcu hrole
    constructor
    · intro j hj hown
      simp only [close_job, hcu, hrole, ne_eq, not_true_eq_false, if_false, hj]
      rw [if_neg (fun hcon => hcon hown)]
    · intro hcase
      rcases hcase with hnone | ⟨j, hj, hnown⟩
      · simp only [close_job, hcu, hrole, ne_eq, not_true_eq_false, if_false, hnone]
      · simp only [close_job, hcu, hrole, ne_eq, not_true_eq_false, if_false, hj]
        rw [if_pos hnown]
  · intro hne
    cases hcu : current_user db session with
    | none =>
      exfalso
      apply hne
      simp only [close_job, hcu]
    | some u =>
      by_cases hrole : u.role = "owner"
      · cases hj : findJob db job_id with
        | none =>
          exfalso
          apply hne
          simp only [close_job, hcu, hrole, ne_eq, not_true_eq_false, if_false, hj]
        | some j =>
          by_cases hown : j.owner_id = u.id
          · exact ⟨u, j, rfl, hrole, rfl, hown⟩
          · exfalso
            apply hne
            simp only [close_job, hcu, hrole, ne_eq, not_true_eq_false, if_false, hj]
            rw [if_pos hown]
      · exfalso
        apply hne
        simp only [close_job, hcu]
        rw [if_pos hrole]

/-- C1 witness: in the sample database the owner closes their open job
(record updated, redirect to the job page), and closing a nonexistent job
is a no-op redirecting to the job listing. -/
theorem close_job_owner_authorization_witness :
    close_job sampleDB (some 2) 1
      = ({ sampleDB with jobs := sampleDB.jobs.map (fun x =>
            if x.id = 1 then { x with status := "closed" } else x) },
         Response.redirect "/jobs/1" 303) ∧
    close_job sampleDB (some 2) 99 = (sampleDB, Response.redirect "/jobs" 303) := by
  constructor
  · rw [((close_job_owner_authorization sampleDB (some 2) 1).1 sampleOwner
        (by decide) (by decide)).1 sampleOpenJob (by decide) (by decide)]
    decide
  · exact ((close_job_owner_authorization sampleDB (some 2) 99).1 sampleOwner
      (by decide) (by decide)).2 (Or.inl (by decide))

/-- C2: the propose handler creates a Proposal row exactly when the caller
is an authenticated provider and the target job exists with status open;
for an authenticated provider against a missing or non-open job it is a
no-op redirecting to the job listing. -/
theorem propose_requires_open_job (db : DB) (session : Option Nat)
    (job_id : Nat) (price : Int) (av w n : String) :
    (∀ u, current_user db session = some u → u.role = "provider" →
      ((findJob db job_id = none ∨
          ∃ j, findJob db job_id = some j ∧ j.status ≠ "open") →
        propose db session job_id price av w n = (db, Response.redirect "/jobs" 303)) ∧
      (∀ j, findJob db job_id = some j → j.status = "open" →
        ∃ p, (propose db session job_id price av w n).1.proposals
            = db.proposals ++ [p] ∧
          (propose db session job_id price av w n).2
            = Response.redirect "/dashboard" 303)) ∧
    ((propose db session job_id price av w n).1.proposals ≠ db.proposals →
      ∃ u j, current_user db session = some u ∧ u.role = "provider" ∧
        findJob db job_id = some j ∧ j.status = "open") := by
  constructor
  · intro u hcu hrole
    constructor
    · intro hcase
      rcases hcase with hnone | ⟨j, hj, hnopen⟩
      · simp only [propose, hcu, hrole, ne_eq, not_true_eq_false, if_false, hnone]
      · simp only [propose, hcu, hrole, ne_eq, not_true_eq_false, if_false, hj]
        rw [if_pos hnopen]
    · intro j hj hopen
      simp only [propose, hcu, hrole, hj, hopen, ne_eq, not_true_eq_false, if_false]
      exact ⟨_, rfl, trivial⟩
  · intro hne
    cases hcu : current_user db session with
    | none =>
      exfalso
      apply hne
      simp only [propose, hcu]
    | some u =>
      by_cases hrole : u.role = "provider"
      · cases hj : findJob db job_id with
        | none =>
          exfalso
          apply hne
          simp only [propose, hcu, hrole, ne_eq, not_true_eq_false, if_false, hj]
        | some j =>
          by_cases hopen : j.status = "open"
          · exact ⟨u, j, rfl, hrole, rfl, hopen⟩
          · exfalso
            apply hne
            simp only [propose, hcu, hrole, ne_eq, not_true_eq_false, if_false, hj]
            rw [if_pos hopen]
      · exfalso
        apply hne
        simp only [propose, hcu]
        rw [if_pos hrole]

/-- C2 witness: in the sample database, proposing on the closed job is a
no-op redirect to the job listing, while proposing on the open job
appends a proposal and redirects to the dashboard. -/
theorem propose_requires_open_job_witness :
    propose sampleDB (some 1) 2 100 "" "" ""
      = (sampleDB, Response.redirect "/jobs" 303) ∧
    ∃ p : Proposal, (propose sampleDB (some 1) 1 100 "" "" "").1.proposals
        = sampleDB.proposals ++ [p] ∧
      (propose sampleDB (some 1) 1 100 "" "" "").2
        = Response.redirect "/dashboard" 303 :=
  ⟨((propose_requires_open_job sampleDB (some 1) 2 100 "" "" "").1 sampleProvider
      (by decide) (by decide)).1 (Or.inr ⟨sampleClosedJob, by decide, by decide⟩),
   ((propose_requires_open_job sampleDB (some 1) 1 100 "" "" "").1 sampleProvider
      (by decide) (by decide)).2 sampleOpenJob (by decide) (by decide)⟩

/-- C3 counterexample: with exactly five portfolio rows, a valid add is
NOT rejected: it succeeds with the added-confirmation redirect and
creates a sixth row (the handler only rejects at six or more rows). -/
theorem sixth_portfolio_add_succeeds :
    portfolioCount fiveItemDB 1 = 5 ∧
    current_user fiveItemDB (some 1) = some sampleProvider ∧
    sampleProvider.role = "provider" ∧
    (me_portfolio_add fiveItemDB (some 1) "https://example.com/p6.png" "" "").2
      = Response.redirect "/me/portfolio?added=1" 303 ∧
    portfolioCount
      (me_portfolio_add fiveItemDB (some 1) "https://example.com/p6.png" "" "").1 1
      = 6 := by
  decide

/-- C3 amended: for an authenticated provider who currently has exactly
six portfolio rows, a portfolio-add request with a valid image URL is
rejected: no seventh row is created and the response redirects back with
the max6 error parameter. -/
theorem portfolio_add_rejected_at_six (db : DB) (s : Option Nat)
    (url st c : String) (u : User)
    (hcu : current_user db s = some u) (hrole : u.role = "provider")
    (hvalid : py_startswith (py_strip url) "http://" = true ∨
              py_startswith (py_strip url) "https://" = true)
    (hcount : portfolioCount db u.id = 6) :
    me_portfolio_add db s url st c
      = (db, Response.redirect "/me/portfolio?err=max6" 303) := by
  simp only [me_portfolio_add, hcu, hrole, ne_eq, not_true_eq_false, if_false]
  rw [if_neg (fun hcon => hcon hvalid)]
  rw [if_pos (by unfold portfolioCount at hcount; omega)]

/-- C3 amended witness: with six rows present, the add is rejected with
the max6 error and the database is unchanged. -/
theorem portfolio_add_rejected_at_six_witness :
    me_portfolio_add sixItemDB (some 1) "https://example.com/p7.png" "" ""
      = (sixItemDB, Response.redirect "/me/portfolio?err=max6" 303) :=
  portfolio_add_rejected_at_six sixItemDB (some 1) "https://example.com/p7.png"
    "" "" sampleProvider (by decide) (by decide) (Or.inr (by decide)) (by decide)

/-- C4: the at-most-six-portfolio-rows-per-user invariant is preserved by
every exposed mutating operation: from a state where each user has at
most six rows, no request sequence produces a user with more than six. -/
theorem portfolio_at_most_six_preserved (db : DB) (reqs : List Request)
    (h : ∀ uid, portfolioCount db uid ≤ 6) :
    ∀ uid, portfolioCount (reqs.foldl applyRequest db) uid ≤ 6 := by
  induction reqs generalizing db with
  | nil => exact h
  | cons r rs ih => exact ih _ (fun uid => applyRequest_portfolioCount_le db r h uid)

/-- C4 witness: starting from five rows, two further adds leave the
provider with at most six rows. -/
theorem portfolio_at_most_six_preserved_witness :
    portfolioCount (List.foldl applyRequest fiveItemDB
      [Request.me_portfolio_add (some 1) "https://example.com/p6.png" "" "",
       Request.me_portfolio_add (some 1) "https://example.com/p7.png" "" ""]) 1 ≤ 6 :=
  portfolio_at_most_six_preserved fiveItemDB _
    (by
      intro uid
      unfold portfolioCount
      exact le_trans (List.length_filter_le _ _) (by decide)) 1

/-- C5: jobs created by the post-job handler have status open, and once a
job's status is closed, no sequence of exposed mutating requests ever
yields that job id with a status other than closed. -/
theorem job_status_never_reopens :
    (∀ (db : DB) (s : Option Nat) (a b c d e : String) (u : Int)
        (f g h i2 : String) (jb : Job),
        jb ∈ (post_job db s a b c d e u f g h i2).1.jobs →
        jb ∈ db.jobs ∨ jb.status = "open") ∧
    (∀ (db : DB) (i : Nat) (j : Job) (reqs : List Request),
        findJob db i = some j → j.status = "closed" →
        ∃ j', findJob (reqs.foldl applyRequest db) i = some j' ∧
          j'.status = "closed") :=
  ⟨fun db s a b c d e u f g h i2 jb hm =>
     post_job_new_jobs_open db s a b c d e u f g h i2 jb hm,
   fun db i j reqs hf hc => findJob_closed_foldl db i j reqs hf hc⟩

/-- C5 witness: the closed sample job stays closed across a post-job and
a close-job request. -/
theorem job_status_never_reopens_witness :
    ∃ j', findJob (List.foldl applyRequest sampleDB
        [Request.post_job (some 2) "clean" "t" "" "" "" 1 "" "0" "" "",
         Request.close_job (some 2) 1]) 2
      = some j' ∧ j'.status = "closed" :=
  job_status_never_reopens.2 sampleDB 2 sampleClosedJob _ (by decide) (by decide)

/-- C6: a register request whose normalized email matches an existing
user leaves the database unchanged and redirects back to the
registration form with an error query parameter. -/
theorem register_duplicate_email_rejected
    (db : DB) (role name phone city email password : String)
    (h : ∃ u ∈ db.users, u.email = py_lower (py_strip email)) :
    (register db role name phone city email password).1 = db ∧
      ((register db role name phone city email password).2 =
          Response.redirect "/register?err=bad_role" 303 ∨
       (register db role name phone city email password).2 =
          Response.redirect "/register?err=email_exists" 303) := by
  obtain ⟨u, hu, he⟩ := h
  have hfind : (db.users.find? (fun v => v.email = py_lower (py_strip email))).isSome := by
    rw [List.find?_isSome]
    exact ⟨u, hu, by simp [he]⟩
  unfold register
  by_cases hrole : ¬ (py_lower (py_strip role) = "owner" ∨ py_lower (py_strip role) = "provider")
  · rw [if_pos hrole]
    exact ⟨rfl, Or.inl rfl⟩
  · rw [if_neg hrole, if_pos hfind]
    exact ⟨rfl, Or.inr rfl⟩

/-- C6 witness: registering with the existing owner email (differing only
in case and surrounding spaces) changes nothing and yields an error
redirect. -/
theorem register_duplicate_email_rejected_witness :
    (register sampleDB "owner" "nina" "0933" "taipei" " Owner@Example.com " "pw").1
      = sampleDB ∧
    ((register sampleDB "owner" "nina" "0933" "taipei" " Owner@Example.com " "pw").2
        = Response.redirect "/register?err=bad_role" 303 ∨
     (register sampleDB "owner" "nina" "0933" "taipei" " Owner@Example.com " "pw").2
        = Response.redirect "/register?err=email_exists" 303) :=
  register_duplicate_email_rejected sampleDB "owner" "nina" "0933" "taipei"
    " Owner@Example.com " "pw" ⟨sampleOwner, by decide, by decide⟩

/-- C7: every mutating role-gated handler (post-job and close-job for
owners; propose, profile save, portfolio add and delete for providers)
responds with a redirect to /login and performs no database write when
the session resolves to no user or to a user of the wrong role. -/
theorem role_mismatch_redirects_login (db : DB) (session : Option Nat) :
    (auth_denied db session "owner" = true →
      (∀ a b c d e u f g h i2,
          post_job db session a b c d e u f g h i2
            = (db, Response.redirect "/login" 303)) ∧
      (∀ jid, close_job db session jid = (db, Response.redirect "/login" 303))) ∧
    (auth_denied db session "provider" = true →
      (∀ jid pr a w n,
          propose db session jid pr a w n = (db, Response.redirect "/login" 303)) ∧
      (∀ a b c d e f g h,
          me_provider_save db session a b c d e f g h
            = (db, Response.redirect "/login" 303)) ∧
      (∀ a b c,
          me_portfolio_add db session a b c
            = (db, Response.redirect "/login" 303)) ∧
      (∀ iid,
          me_portfolio_delete db session iid
            = (db, Response.redirect "/login" 303))) := by
  constructor
  · intro hd
    cases hcu : current_user db session with
    | none =>
      refine ⟨fun a b c d e u f g h i2 => ?_, fun jid => ?_⟩
      · simp only [post_job, hcu]
      · simp only [close_job, hcu]
    | some u =>
      have hrole : ¬ u.role = "owner" := by
        simpa [auth_denied, hcu] using hd
      refine ⟨fun a b c d e uu f g h i2 => ?_, fun jid => ?_⟩
      · simp only [post_job, hcu]
        rw [if_pos hrole]
      · simp only [close_job, hcu]
        rw [if_pos hrole]
  · intro hd
    cases hcu : current_user db session with
    | none =>
      refine ⟨fun jid pr a w n => ?_, fun a b c d e f g h => ?_,
              fun a b c => ?_, fun iid => ?_⟩
      · simp only [propose, hcu]
      · simp only [me_provider_save, hcu]
      · simp only [me_portfolio_add, hcu]
      · simp only [me_portfolio_delete, hcu]
    | some u =>
      have hrole : ¬ u.role = "provider" := by
        simpa [auth_denied, hcu] using hd
      refine ⟨fun jid pr a w n => ?_, fun a b c d e f g h => ?_,
              fun a b c => ?_, fun iid => ?_⟩
      · simp only [propose, hcu]
        rw [if_pos hrole]
      · simp only [me_provider_save, hcu]
        rw [if_pos hrole]
      · simp only [me_portfolio_add, hcu]
        rw [if_pos hrole]
      · simp only [me_portfolio_delete, hcu]
        rw [if_pos hrole]

/-- C7 witness: in the sample database, the provider is denied the
owner-gated handlers, the owner is denied the provider-gated handlers,
and an absent session is denied, all via a /login redirect with the
database unchanged. -/
theorem role_mismatch_redirects_login_witness :
    close_job sampleDB (some 1) 1 = (sampleDB, Response.redirect "/login" 303) ∧
    post_job sampleDB (some 1) "x" "y" "" "" "" 1 "" "0" "" ""
      = (sampleDB, Response.redirect "/login" 303) ∧
    propose sampleDB (some 2) 1 100 "" "" ""
      = (sampleDB, Response.redirect "/login" 303) ∧
    me_provider_save sampleDB (some 2) "" "" "" "" "" "" "" ""
      = (sampleDB, Response.redirect "/login" 303) ∧
    me_portfolio_add sampleDB (some 2) "https://a" "" ""
      = (sampleDB, Response.redirect "/login" 303) ∧
    me_portfolio_delete sampleDB (some 2) 1
      = (sampleDB, Response.redirect "/login" 303) ∧
    me_portfolio_delete sampleDB none 1
      = (sampleDB, Response.redirect "/login" 303) :=
  ⟨((role_mismatch_redirects_login sampleDB (some 1)).1 (by decide)).2 1,
   ((role_mismatch_redirects_login sampleDB (some 1)).1 (by decide)).1
     "x" "y" "" "" "" 1 "" "0" "" "",
   ((role_mismatch_redirects_login sampleDB (some 2)).2 (by decide)).1 1 100 "" "" "",
   ((role_mismatch_redirects_login sampleDB (some 2)).2 (by decide)).2.1
     "" "" "" "" "" "" "" "",
   ((role_mismatch_redirects_login sampleDB (some 2)).2 (by decide)).2.2.1 "https://a" "" "",
   ((role_mismatch_redirects_login sampleDB (some 2)).2 (by decide)).2.2.2 1,
   ((role_mismatch_redirects_login sampleDB none).2 (by decide)).2.2.2 1⟩

/-- C8: every proposal created by the propose handler stores
max(0, submitted price), hence a non-negative price. -/
theorem proposal_price_nonneg
    (db : DB) (session : Option Nat) (job_id : Nat) (price : Int)
    (available_time warranty note : String) (u : User) (j : Job)
    (hcu : current_user db session = some u) (hrole : u.role = "provider")
    (hjob : findJob db job_id = some j) (hopen : j.status = "open") :
    ∃ p : Proposal,
      (propose db session job_id price available_time warranty note).1.proposals
        = db.proposals ++ [p] ∧ p.price = max 0 price ∧ 0 ≤ p.price := by
  simp only [propose, hcu, hjob, hrole, hopen, ne_eq, not_true_eq_false, if_false]
  exact ⟨_, rfl, rfl, le_max_left 0 price⟩

/-- C8 witness: a submitted price of -7 is stored as max(0, -7) = 0. -/
theorem proposal_price_nonneg_witness :
    ∃ p : Proposal, (propose sampleDB (some 1) 1 (-7) "" "" "").1.proposals
        = sampleDB.proposals ++ [p] ∧ p.price = max 0 (-7) ∧ 0 ≤ p.price :=
  proposal_price_nonneg sampleDB (some 1) 1 (-7) "" "" "" sampleProvider
    sampleOpenJob (by decide) (by decide) (by decide) (by decide)

/-- C9: every job created by the post-job handler stores
max(1, submitted units), hence a unit count of at least 1. -/
theorem job_units_at_least_one (db : DB) (session : Option Nat)
    (a b c d e : String) (units : Int) (f g h i2 : String) (u : User)
    (hcu : current_user db session = some u) (hrole : u.role = "owner") :
    ∃ j : Job, (post_job db session a b c d e units f g h i2).1.jobs
        = db.jobs ++ [j] ∧ j.units = max 1 units ∧ 1 ≤ j.units := by
  simp only [post_job, hcu, hrole, ne_eq, not_true_eq_false, if_false]
  exact ⟨_, rfl, rfl, le_max_left 1 units⟩

/-- C9 witness: a submitted unit count of 0 is stored as max(1, 0) = 1. -/
theorem job_units_at_least_one_witness :
    ∃ j : Job, (post_job sampleDB (some 2) "clean" "taipei" "" "" "" 0 "" "0" "" "").1.jobs
        = sampleDB.jobs ++ [j] ∧ j.units = max 1 0 ∧ 1 ≤ j.units :=
  job_units_at_least_one sampleDB (some 2) "clean" "taipei" "" "" "" 0 "" "0" "" ""
    sampleOwner (by decide) (by decide)

/-- C10: a portfolio-add request whose trimmed image URL starts with
neither http:// nor https:// creates no row and redirects with the
bad-url error parameter, for any authenticated provider. -/
theorem portfolio_add_rejects_bad_url (db : DB) (s : Option Nat)
    (url st c : String) (u : User)
    (hcu : current_user db s = some u) (hrole : u.role = "provider")
    (hbad : ¬ (py_startswith (py_strip url) "http://" = true ∨
               py_startswith (py_strip url) "https://" = true)) :
    me_portfolio_add db s url st c
      = (db, Response.redirect "/me/portfolio?err=bad_url" 303) := by
  simp only [me_portfolio_add, hcu, hrole, ne_eq, not_true_eq_false, if_false]
  rw [if_pos hbad]

/-- C10 witness: an ftp URL is rejected with the bad-url error even
though the provider has no portfolio rows. -/
theorem portfolio_add_rejects_bad_url_witness :
    me_portfolio_add sampleDB (some 1) "ftp://example.com/a.png" "" ""
      = (sampleDB, Response.redirect "/me/portfolio?err=bad_url" 303) :=
  portfolio_add_rejects_bad_url sampleDB (some 1) "ftp://example.com/a.png" "" ""
    sampleProvider (by decide) (by decide) (by decide)

end ACMatcher
